import Mathlib

/-!
# Stock ledger verification for the StockGerenciator repository

Shallow embedding of the inventory application's data model and write paths:
the SQL schema and the `update_product_stock` trigger (migration file), the
movement form validation (`movementSchema`, Movements page), the product
dialog save mutation (`ProductDialog.tsx`), the product/category/supplier
CRUD mutations, and the dashboard aggregates (`Dashboard` page).

Quantities are `DECIMAL(10,2)` columns: their value set is exactly the
integer multiples of `0.01`, and the only arithmetic the code performs on
them (addition, subtraction, replacement, order comparison) is exact and
stays on that grid.  They are therefore embedded losslessly as `Int` amounts
counted in hundredths: the stored decimal `x` is represented by the integer
`100 * x` (so `0.01` is `1`, `5` is `500`, `10` is `1000`).  Every bound
taken from the code is scaled the same way, and addition, subtraction and
`≤` commute with the scaling.
-/

/-- `movement_type` enum from the migration: `('entry', 'exit', 'adjustment')`. -/
inductive MovementType
  | entry
  | exit
  | adjustment
deriving DecidableEq, Repr

/-- `product_unit` enum from the migration: `('un','kg','l','m','m2','m3','cx','pc')`. -/
inductive ProductUnit
  | un
  | kg
  | l
  | m
  | m2
  | m3
  | cx
  | pc
deriving DecidableEq, Repr

/-- One row of `public.stock_movements`. -/
structure StockMovement where
  id : String
  product_id : String
  type : MovementType
  quantity : Int
  batch_number : Option String
  expiration_date : Option String
  notes : Option String
  user_id : String
  created_at : Nat
deriving DecidableEq, Repr

/-- One row of `public.products`. -/
structure Product where
  id : String
  code : String
  barcode : Option String
  name : String
  description : Option String
  category_id : Option String
  supplier_id : Option String
  unit : ProductUnit
  current_stock : Int
  minimum_stock : Int
  price : Option Int
  batch_control : Bool
  expiration_control : Bool
deriving DecidableEq, Repr

/-- One row of `public.categories` (descriptive fields only). -/
structure Category where
  id : String
  name : String
  description : Option String
deriving DecidableEq, Repr

/-- One row of `public.suppliers`. -/
structure Supplier where
  id : String
  name : String
  contact_name : Option String
  email : Option String
  phone : Option String
  address : Option String
deriving DecidableEq, Repr

/-- The database tables the application mutates.  `movements` is kept in
insertion order (rows are only ever appended; `created_at` defaults to the
insertion time, so "ordered by `created_at` descending" is the reverse of
this list). -/
structure DBState where
  products : List Product
  movements : List StockMovement
  categories : List Category
  suppliers : List Supplier
deriving DecidableEq, Repr

/-- The scalar three-case rule inside the `update_product_stock` trigger:
entry adds, exit subtracts, adjustment replaces. -/
def applyMovement (current : Int) (t : MovementType) (q : Int) : Int :=
  match t with
  | MovementType.entry => current + q
  | MovementType.exit => current - q
  | MovementType.adjustment => q

/-- The `update_product_stock` trigger function: `UPDATE public.products SET
current_stock = ... WHERE id = NEW.product_id`, with the three-case rule on
`NEW.type`. -/
def update_product_stock (m : StockMovement) (ps : List Product) : List Product :=
  ps.map fun p =>
    if p.id = m.product_id then
      { p with current_stock := applyMovement p.current_stock m.type m.quantity }
    else p

/-- The movement form values of the Movements page (`MovementFormValues`). -/
structure MovementFormValues where
  product_id : String
  type : MovementType
  quantity : Int
  batch_number : Option String
  expiration_date : Option String
  notes : Option String
deriving DecidableEq, Repr

/-- `movementSchema` from the Movements page: `product_id` nonempty,
`quantity` coerced number with `.min(0.01)` — in hundredths, `1 ≤ quantity` —
`batch_number` at most 100 characters, `notes` at most 500 characters
(`expiration_date` is an unconstrained optional string).  The same `0.01`
floor applies to every movement type. -/
def movementSchema (v : MovementFormValues) : Bool :=
  decide (1 ≤ v.product_id.length) &&
  decide ((1 : Int) ≤ v.quantity) &&
  decide ((v.batch_number.getD "").length ≤ 100) &&
  decide ((v.notes.getD "").length ≤ 500)

/-- Error outcomes of the movement write path: client-side zod rejection, or
the `stock_movements.product_id` foreign key finding no product row. -/
inductive RecordError
  | validationError
  | notFound
deriving DecidableEq, Repr

/-- The `dataToSave` row built by the Movements page `saveMutation`, stamped
with the acting user's id; `id`/`created_at` come from the database defaults. -/
def mkMovement (v : MovementFormValues) (uid mid : String) (now : Nat) : StockMovement :=
  { id := mid
    product_id := v.product_id
    type := v.type
    quantity := v.quantity
    batch_number := v.batch_number
    expiration_date := v.expiration_date
    notes := v.notes
    user_id := uid
    created_at := now }

/-- The complete movement write path: zod validation, then the
`stock_movements` insert (whose `product_id` foreign key requires an existing
product row), then the `on_stock_movement_created` AFTER INSERT trigger
running `update_product_stock` in the same transaction.  A failing call
performs no mutation (the transaction is rolled back in full). -/
def recordMovement (s : DBState) (v : MovementFormValues) (uid mid : String) (now : Nat) :
    DBState × Except RecordError String :=
  if movementSchema v = true then
    if s.products.any (fun p => p.id == v.product_id) then
      let m := mkMovement v uid mid now
      ({ s with
          movements := s.movements ++ [m]
          products := update_product_stock m s.products },
        Except.ok mid)
    else (s, Except.error RecordError.notFound)
  else (s, Except.error RecordError.validationError)

/-- The stock of the product row with the given id (first match), as read by
any page querying `products`. -/
def currentStockOf (s : DBState) (pid : String) : Option Int :=
  (s.products.find? fun p => p.id == pid).map fun p => p.current_stock

/-- The ledger of one product: the `stock_movements` rows referencing it, in
creation order. -/
def movementsFor (s : DBState) (pid : String) : List StockMovement :=
  s.movements.filter fun m => m.product_id == pid

/-- Recomputing a quantity from scratch: fold the three-case rule over a
movement list in creation order. -/
def foldMovements (init : Int) (ms : List StockMovement) : Int :=
  ms.foldl (fun q m => applyMovement q m.type m.quantity) init

/-- One invocation of the Movements page form submission. -/
structure MovementCall where
  form : MovementFormValues
  uid : String
  mid : String
  now : Nat
deriving DecidableEq, Repr

/-- A sequence of `recordMovement` calls, applied in order (failed calls
leave the state unchanged). -/
def runMovements (s : DBState) (calls : List MovementCall) : DBState :=
  calls.foldl (fun st c => (recordMovement st c.form c.uid c.mid c.now).1) s

/-- The product form values of `ProductDialog.tsx` (`ProductFormValues`),
current stock included: the form carries `current_stock` as a plain field. -/
structure ProductFormValues where
  code : String
  name : String
  description : Option String
  category_id : Option String
  supplier_id : Option String
  unit : ProductUnit
  minimum_stock : Int
  current_stock : Int
  price : Option Int
  barcode : Option String
  batch_control : Bool
  expiration_control : Bool
deriving DecidableEq, Repr

/-- `productSchema` from `ProductDialog.tsx`: code 1..50 chars, name 1..200
chars, description at most 1000 chars, `minimum_stock` and `current_stock`
at least 0, optional price at least 0, barcode at most 100 chars. -/
def productSchema (v : ProductFormValues) : Bool :=
  decide (1 ≤ v.code.length) && decide (v.code.length ≤ 50) &&
  decide (1 ≤ v.name.length) && decide (v.name.length ≤ 200) &&
  decide ((v.description.getD "").length ≤ 1000) &&
  decide ((0 : Int) ≤ v.minimum_stock) &&
  decide ((0 : Int) ≤ v.current_stock) &&
  decide ((0 : Int) ≤ v.price.getD 0) &&
  decide ((v.barcode.getD "").length ≤ 100)

/-- JavaScript `value || null` on an optional string field: the empty string
is saved as null. -/
def strOrNull (o : Option String) : Option String :=
  match o with
  | some s => if s = "" then none else some s
  | none => none

/-- JavaScript `values.price || null`: a price of `0` is saved as null. -/
def priceOrNull (o : Option Int) : Option Int :=
  match o with
  | some q => if q = 0 then none else some q
  | none => none

/-- The `dataToSave` record of the product dialog `saveMutation`, written over
an existing row (update) or over a fresh default row (insert).  It includes
`current_stock := values.current_stock` on both paths. -/
def productDataToSave (p : Product) (v : ProductFormValues) : Product :=
  { p with
    code := v.code
    name := v.name
    unit := v.unit
    minimum_stock := v.minimum_stock
    current_stock := v.current_stock
    batch_control := v.batch_control
    expiration_control := v.expiration_control
    category_id := strOrNull v.category_id
    supplier_id := strOrNull v.supplier_id
    description := strOrNull v.description
    price := priceOrNull v.price
    barcode := strOrNull v.barcode }

/-- A fresh `products` row before the insert fields are applied (database
column defaults). -/
def defaultProduct (pid : String) : Product :=
  { id := pid
    code := ""
    barcode := none
    name := ""
    description := none
    category_id := none
    supplier_id := none
    unit := ProductUnit.un
    current_stock := 0
    minimum_stock := 0
    price := none
    batch_control := false
    expiration_control := false }

/-- The product dialog `saveMutation`: zod-validated form, then either
`update(dataToSave).eq("id", productId)` when editing or
`insert([dataToSave])` when creating. -/
def productDialogSave (s : DBState) (editing : Option String) (v : ProductFormValues)
    (newId : String) : DBState :=
  if productSchema v = true then
    match editing with
    | some pid =>
        { s with
          products := s.products.map fun p => if p.id = pid then productDataToSave p v else p }
    | none =>
        { s with products := s.products ++ [productDataToSave (defaultProduct newId) v] }
  else s

/-- The Products page `deleteMutation`: `products.delete().eq("id", id)`; the
`stock_movements.product_id` foreign key is declared `ON DELETE CASCADE`, so
the product's movements are removed with it. -/
def productDelete (s : DBState) (pid : String) : DBState :=
  { s with
    products := s.products.filter fun p => !(p.id == pid)
    movements := s.movements.filter fun m => !(m.product_id == pid) }

/-- The category form of the Categories page. -/
structure CategoryFormValues where
  name : String
  description : Option String
deriving DecidableEq, Repr

/-- The Categories page save mutation (insert or update by id). -/
def categorySave (s : DBState) (editing : Option String) (v : CategoryFormValues)
    (newId : String) : DBState :=
  match editing with
  | some cid =>
      { s with
        categories := s.categories.map fun c =>
          if c.id = cid then { c with name := v.name, description := strOrNull v.description }
          else c }
  | none =>
      { s with
        categories := s.categories ++
          [{ id := newId, name := v.name, description := strOrNull v.description }] }

/-- The Categories page delete mutation.  `products.category_id` references
`categories(id)` with the default NO ACTION rule, so the delete fails (and
changes nothing) while a product still references the category. -/
def categoryDelete (s : DBState) (cid : String) : DBState :=
  if s.products.any (fun p => p.category_id == some cid) then s
  else { s with categories := s.categories.filter fun c => !(c.id == cid) }

/-- The supplier form of the Suppliers page. -/
structure SupplierFormValues where
  name : String
  contact_name : Option String
  email : Option String
  phone : Option String
  address : Option String
deriving DecidableEq, Repr

/-- The Suppliers page save mutation (insert or update by id). -/
def supplierSave (s : DBState) (editing : Option String) (v : SupplierFormValues)
    (newId : String) : DBState :=
  match editing with
  | some sid =>
      { s with
        suppliers := s.suppliers.map fun c =>
          if c.id = sid then
            { c with
              name := v.name
              contact_name := strOrNull v.contact_name
              email := strOrNull v.email
              phone := strOrNull v.phone
              address := strOrNull v.address }
          else c }
  | none =>
      { s with
        suppliers := s.suppliers ++
          [{ id := newId
             name := v.name
             contact_name := strOrNull v.contact_name
             email := strOrNull v.email
             phone := strOrNull v.phone
             address := strOrNull v.address }] }

/-- The Suppliers page delete mutation; `products.supplier_id` is a plain
foreign key, so the delete fails while a product references the supplier. -/
def supplierDelete (s : DBState) (sid : String) : DBState :=
  if s.products.any (fun p => p.supplier_id == some sid) then s
  else { s with suppliers := s.suppliers.filter fun c => !(c.id == sid) }

/-- The legacy product form of the vendored `packcontrol-pro-main` copy of
the dialog: no `current_stock` field at all. -/
structure LegacyProductFormValues where
  code : String
  barcode : Option String
  name : String
  description : Option String
  category_id : Option String
  supplier_id : Option String
  unit : ProductUnit
  minimum_stock : Int
  price : Option Int
deriving DecidableEq, Repr

/-- The legacy dialog's zod schema: code nonempty, name at least 3 chars,
`minimum_stock` and price at least 0. -/
def legacyProductSchema (v : LegacyProductFormValues) : Bool :=
  decide (1 ≤ v.code.length) && decide (3 ≤ v.name.length) &&
  decide ((0 : Int) ≤ v.minimum_stock) &&
  decide ((0 : Int) ≤ v.price.getD 0)

/-- The legacy dialog's `submitData` applied to a row (update path) — note it
never touches `current_stock`. -/
def legacySubmitData (p : Product) (v : LegacyProductFormValues) : Product :=
  { p with
    code := v.code
    barcode := v.barcode
    name := v.name
    description := v.description
    unit := v.unit
    minimum_stock := v.minimum_stock
    category_id := strOrNull v.category_id
    supplier_id := strOrNull v.supplier_id
    price := priceOrNull v.price }

/-- The legacy dialog's `handleSubmit`: validate, then update by id or insert
(a created row gets the `current_stock` column default of 0). -/
def legacyProductSave (s : DBState) (editing : Option String) (v : LegacyProductFormValues)
    (newId : String) : DBState :=
  if legacyProductSchema v = true then
    match editing with
    | some pid =>
        { s with
          products := s.products.map fun p => if p.id = pid then legacySubmitData p v else p }
    | none =>
        { s with products := s.products ++ [legacySubmitData (defaultProduct newId) v] }
  else s

/-- The legacy `StockMovementDialog` zod schema: only `product_id` nonempty
and `quantity ≥ 0.01` are checked before the insert. -/
def legacyMovementSchema (v : MovementFormValues) : Bool :=
  decide (1 ≤ v.product_id.length) && decide ((1 : Int) ≤ v.quantity)

/-- The legacy `StockMovementDialog` submission: weaker client validation,
then the same insert + trigger transaction as `recordMovement`. -/
def legacyRecordMovement (s : DBState) (v : MovementFormValues) (uid mid : String) (now : Nat) :
    DBState × Except RecordError String :=
  if legacyMovementSchema v = true then
    if s.products.any (fun p => p.id == v.product_id) then
      let m := mkMovement v uid mid now
      ({ s with
          movements := s.movements ++ [m]
          products := update_product_stock m s.products },
        Except.ok mid)
    else (s, Except.error RecordError.notFound)
  else (s, Except.error RecordError.validationError)

/-- Every state-mutating operation exposed anywhere in the application: the
Movements page form, both product dialogs (current and vendored legacy), the
legacy stock-movement dialog, product deletion, and category/supplier CRUD.
All remaining pages (Dashboard, Reports, Entries/Exits history, Settings)
only read. -/
inductive AppOp
  | record (v : MovementFormValues) (uid mid : String) (now : Nat)
  | legacyRecord (v : MovementFormValues) (uid mid : String) (now : Nat)
  | saveProduct (editing : Option String) (v : ProductFormValues) (newId : String)
  | legacySaveProduct (editing : Option String) (v : LegacyProductFormValues) (newId : String)
  | removeProduct (pid : String)
  | saveCategory (editing : Option String) (v : CategoryFormValues) (newId : String)
  | removeCategory (cid : String)
  | saveSupplier (editing : Option String) (v : SupplierFormValues) (newId : String)
  | removeSupplier (sid : String)
deriving DecidableEq, Repr

/-- Apply one exposed operation to the database state. -/
def applyOp (s : DBState) : AppOp → DBState
  | AppOp.record v uid mid now => (recordMovement s v uid mid now).1
  | AppOp.legacyRecord v uid mid now => (legacyRecordMovement s v uid mid now).1
  | AppOp.saveProduct editing v newId => productDialogSave s editing v newId
  | AppOp.legacySaveProduct editing v newId => legacyProductSave s editing v newId
  | AppOp.removeProduct pid => productDelete s pid
  | AppOp.saveCategory editing v newId => categorySave s editing v newId
  | AppOp.removeCategory cid => categoryDelete s cid
  | AppOp.saveSupplier editing v newId => supplierSave s editing v newId
  | AppOp.removeSupplier sid => supplierDelete s sid

/-- Dashboard / Reports aggregate: `products.filter(p => p.current_stock <=
p.minimum_stock).length`. -/
def lowStockProducts (ps : List Product) : Nat :=
  (ps.filter fun p => decide (p.current_stock ≤ p.minimum_stock)).length

/-- The Dashboard's `recent-movements` query: ordered by `created_at`
descending with `.limit(5)` — the five most recently created movements. -/
def recentMovements (ms : List StockMovement) : List StockMovement :=
  ms.reverse.take 5

/-- Dashboard counter `todayEntries`: filter the five recent movements for
entries created today (`isToday` stands for the `toDateString()` comparison
against the current date). -/
def todayEntries (isToday : Nat → Bool) (ms : List StockMovement) : Nat :=
  ((recentMovements ms).filter fun m =>
    m.type == MovementType.entry && isToday m.created_at).length

/-- Dashboard counter `todayExits`, same shape for exits. -/
def todayExits (isToday : Nat → Bool) (ms : List StockMovement) : Nat :=
  ((recentMovements ms).filter fun m =>
    m.type == MovementType.exit && isToday m.created_at).length

/-- Overwrite one product's `minimum_stock`, leaving everything else alone —
used to state that movements never consult the minimum threshold. -/
def setMinimumStock (s : DBState) (pid : String) (μ : Int) : DBState :=
  { s with
    products := s.products.map fun p =>
      if p.id = pid then { p with minimum_stock := μ } else p }

/-- Classifies the operations whose handler writes the `current_stock`
column: the two movement write paths (via the trigger) and the current
product dialog (which sends `current_stock` as a plain form field). -/
def writesCurrentStock : AppOp → Bool
  | AppOp.record _ _ _ _ => true
  | AppOp.legacyRecord _ _ _ _ => true
  | AppOp.saveProduct _ _ _ => true
  | _ => false

/-- The movement row appended by an operation, when it is one of the two
movement write paths. -/
def appendedBy (m : StockMovement) : AppOp → Prop
  | AppOp.record v uid mid now => m = mkMovement v uid mid now
  | AppOp.legacyRecord v uid mid now => m = mkMovement v uid mid now
  | _ => False

/- ### Helper lemmas -/

theorem find?_map_idpres {α : Type} (g : α → α) (r : α → Bool)
    (hpres : ∀ x, r (g x) = r x) (l : List α) :
    (l.map g).find? r = (l.find? r).map g := by
  induction l with
  | nil => rfl
  | cons a as ih =>
    by_cases h : r a = true
    · rw [List.map_cons, List.find?_cons_of_pos _ (by rw [hpres]; exact h),
        List.find?_cons_of_pos _ h]
      rfl
    · have h' : ¬ r a = true := h
      rw [List.map_cons, List.find?_cons_of_neg _ (by rw [hpres]; exact h'),
        List.find?_cons_of_neg _ h', ih]

theorem any_map_idpres {α : Type} (g : α → α) (r : α → Bool)
    (hpres : ∀ x, r (g x) = r x) (l : List α) :
    (l.map g).any r = l.any r := by
  rw [List.any_map]
  congr 1
  funext x
  exact hpres x

theorem find?_filter_of_imp {α : Type} (q r : α → Bool)
    (h : ∀ x, r x = true → q x = true) (l : List α) :
    (l.filter q).find? r = l.find? r := by
  induction l with
  | nil => rfl
  | cons a as ih =>
    by_cases hq : q a = true
    · rw [List.filter_cons_of_pos hq]
      by_cases hr : r a = true
      · rw [List.find?_cons_of_pos _ hr, List.find?_cons_of_pos _ hr]
      · rw [List.find?_cons_of_neg _ hr, List.find?_cons_of_neg _ hr, ih]
    · have hr : ¬ r a = true := fun hr => hq (h a hr)
      rw [List.filter_cons_of_neg hq, List.find?_cons_of_neg _ hr, ih]

theorem find?_filter_none {α : Type} (q r : α → Bool)
    (h : ∀ x, r x = true → q x = false) (l : List α) :
    (l.filter q).find? r = none := by
  refine List.find?_eq_none.2 fun x hx hr => ?_
  have hq := (List.mem_filter.1 hx).2
  rw [h x hr] at hq
  cases hq

theorem find?_append_left {α : Type} (r : α → Bool) (l₁ l₂ : List α) (a : α)
    (h : l₁.find? r = some a) : (l₁ ++ l₂).find? r = some a := by
  induction l₁ with
  | nil => simp at h
  | cons x xs ih =>
    by_cases hx : r x = true
    · rw [List.find?_cons_of_pos _ hx] at h
      rw [List.cons_append, List.find?_cons_of_pos _ hx]
      exact h
    · rw [List.find?_cons_of_neg _ hx] at h
      rw [List.cons_append, List.find?_cons_of_neg _ hx]
      exact ih h

theorem any_of_currentStock (s : DBState) (pid : String) (q0 : Int)
    (h : currentStockOf s pid = some q0) :
    s.products.any (fun p => p.id == pid) = true := by
  unfold currentStockOf at h
  cases hf : s.products.find? (fun p => p.id == pid) with
  | none => rw [hf] at h; cases h
  | some p =>
    have h1 := List.mem_of_find?_eq_some hf
    have h2 := List.find?_some hf
    exact List.any_eq_true.2 ⟨p, h1, h2⟩

/-- Effect of the trigger on the stock read back for any product id: the
target's stock goes through the three-case rule, everyone else's stock is
untouched. -/
theorem find_stock_update (m : StockMovement) (ps : List Product) (pid : String) :
    ((update_product_stock m ps).find? fun p => p.id == pid).map (fun p => p.current_stock) =
      if pid = m.product_id then
        ((ps.find? fun p => p.id == pid).map fun p => p.current_stock).map
          (fun q => applyMovement q m.type m.quantity)
      else (ps.find? fun p => p.id == pid).map fun p => p.current_stock := by
  unfold update_product_stock
  rw [find?_map_idpres _ _ (fun p => by by_cases h : p.id = m.product_id <;> simp [h]) ps]
  cases hf : ps.find? (fun p => p.id == pid) with
  | none => simp
  | some p =>
    have hp : p.id = pid := by simpa using List.find?_some hf
    by_cases hm : pid = m.product_id
    · have hpm : p.id = m.product_id := hp.trans hm
      simp [hm, hpm]
    · have hpm : ¬ p.id = m.product_id := fun h => hm (hp ▸ h)
      simp [hm, hpm]

theorem recordMovement_ok (s : DBState) (v : MovementFormValues) (uid mid : String) (now : Nat)
    (h1 : movementSchema v = true)
    (h2 : s.products.any (fun p => p.id == v.product_id) = true) :
    recordMovement s v uid mid now =
      ({ s with
          movements := s.movements ++ [mkMovement v uid mid now]
          products := update_product_stock (mkMovement v uid mid now) s.products },
        Except.ok mid) := by
  simp [recordMovement, h1, h2]

theorem recordMovement_invalid (s : DBState) (v : MovementFormValues) (uid mid : String)
    (now : Nat) (h1 : movementSchema v = false) :
    recordMovement s v uid mid now = (s, Except.error RecordError.validationError) := by
  simp [recordMovement, h1]

theorem recordMovement_notFound (s : DBState) (v : MovementFormValues) (uid mid : String)
    (now : Nat) (h1 : movementSchema v = true)
    (h2 : s.products.any (fun p => p.id == v.product_id) = false) :
    recordMovement s v uid mid now = (s, Except.error RecordError.notFound) := by
  simp [recordMovement, h1, h2]


/-- Stock read-back after a successful `recordMovement`: the target product's
stock goes through the three-case rule, all other products are untouched. -/
theorem currentStock_after_ok (s : DBState) (v : MovementFormValues) (uid mid : String)
    (now : Nat) (pid : String) (h1 : movementSchema v = true)
    (h2 : s.products.any (fun p => p.id == v.product_id) = true) :
    currentStockOf (recordMovement s v uid mid now).1 pid =
      if pid = v.product_id then
        (currentStockOf s pid).map fun q => applyMovement q v.type v.quantity
      else currentStockOf s pid := by
  rw [recordMovement_ok s v uid mid now h1 h2]
  dsimp only
  simp only [currentStockOf]
  rw [find_stock_update]
  rfl

/-- Ledger read-back after a successful `recordMovement`: the target
product's ledger gains exactly the new row at the end, other ledgers are
unchanged. -/
theorem movementsFor_after_ok (s : DBState) (v : MovementFormValues) (uid mid : String)
    (now : Nat) (pid : String) (h1 : movementSchema v = true)
    (h2 : s.products.any (fun p => p.id == v.product_id) = true) :
    movementsFor (recordMovement s v uid mid now).1 pid =
      movementsFor s pid ++
        (if pid = v.product_id then [mkMovement v uid mid now] else []) := by
  rw [recordMovement_ok s v uid mid now h1 h2]
  dsimp only
  simp only [movementsFor, List.filter_append]
  by_cases hp : pid = v.product_id
  · simp [mkMovement, hp]
  · have hp' : ¬ v.product_id = pid := fun h => hp h.symm
    simp [mkMovement, hp', hp]

/- ### Concrete fixtures (amounts in hundredths: `500` is the decimal `5`) -/

/-- A database with no rows at all. -/
def emptyState : DBState :=
  { products := [], movements := [], categories := [], suppliers := [] }

/-- A product at stock `10` (`1000` hundredths). -/
def widgetProduct : Product :=
  { id := "p1"
    code := "PROD001"
    barcode := none
    name := "Widget"
    description := none
    category_id := none
    supplier_id := none
    unit := ProductUnit.un
    current_stock := 1000
    minimum_stock := 0
    price := none
    batch_control := false
    expiration_control := false }

/-- A database holding just `widgetProduct`. -/
def widgetState : DBState :=
  { products := [widgetProduct], movements := [], categories := [], suppliers := [] }

/-- A database holding the product at stock `2` (`200` hundredths). -/
def stock2State : DBState :=
  { products := [{ widgetProduct with current_stock := 200 }]
    movements := [], categories := [], suppliers := [] }

/-- A database holding the product at stock `120` (`12000` hundredths). -/
def stock120State : DBState :=
  { products := [{ widgetProduct with current_stock := 12000 }]
    movements := [], categories := [], suppliers := [] }

/-- An entry of `5` for product `p1`. -/
def entry5Form : MovementFormValues :=
  { product_id := "p1", type := MovementType.entry, quantity := 500,
    batch_number := none, expiration_date := none, notes := none }

/-- An exit of `3` for product `p1`. -/
def exit3Form : MovementFormValues :=
  { product_id := "p1", type := MovementType.exit, quantity := 300,
    batch_number := none, expiration_date := none, notes := none }

/-- An exit of `5` for product `p1`. -/
def exit5Form : MovementFormValues :=
  { product_id := "p1", type := MovementType.exit, quantity := 500,
    batch_number := none, expiration_date := none, notes := none }

/-- An adjustment to `50` for product `p1`. -/
def adjust50Form : MovementFormValues :=
  { product_id := "p1", type := MovementType.adjustment, quantity := 5000,
    batch_number := none, expiration_date := none, notes := none }

/-- An adjustment with quantity `0` for product `p1`. -/
def adjustZeroForm : MovementFormValues :=
  { product_id := "p1", type := MovementType.adjustment, quantity := 0,
    batch_number := none, expiration_date := none, notes := none }

/-- An entry with quantity `0` for product `p1`. -/
def entryZeroForm : MovementFormValues :=
  { product_id := "p1", type := MovementType.entry, quantity := 0,
    batch_number := none, expiration_date := none, notes := none }

/-- An entry of `1` aimed at a product id that exists nowhere. -/
def ghostForm : MovementFormValues :=
  { product_id := "nonexistent-id", type := MovementType.entry, quantity := 100,
    batch_number := none, expiration_date := none, notes := none }

/-- The two demonstration calls of the spec: entry `5`, then exit `3`. -/
def demoCalls : List MovementCall :=
  [{ form := entry5Form, uid := "u1", mid := "m1", now := 0 },
   { form := exit3Form, uid := "u1", mid := "m2", now := 1 }]

/- ### C1 -/

/-- C1: after any sequence of `recordMovement` calls, a product's
incrementally maintained `current_stock` equals the fold of the three-case
rule over exactly the movements appended to its ledger, starting from its
stock before the sequence — so recomputing the quantity from the movement
history from scratch reproduces the maintained field, regardless of how many
calls were made. -/
theorem fold_correctness (calls : List MovementCall) (s : DBState) (pid : String)
    (q0 : Int) (h : currentStockOf s pid = some q0) :
    ∃ delta : List StockMovement,
      movementsFor (runMovements s calls) pid = movementsFor s pid ++ delta ∧
      currentStockOf (runMovements s calls) pid = some (foldMovements q0 delta) := by
  induction calls generalizing s q0 with
  | nil =>
    refine ⟨[], by simp [runMovements], ?_⟩
    simpa [runMovements, foldMovements] using h
  | cons c cs ih =>
    have hrun : runMovements s (c :: cs) =
        runMovements (recordMovement s c.form c.uid c.mid c.now).1 cs := rfl
    by_cases h1 : movementSchema c.form = true
    · by_cases h2 : s.products.any (fun p => p.id == c.form.product_id) = true
      · -- the call succeeds and appends one row
        have hst := currentStock_after_ok s c.form c.uid c.mid c.now pid h1 h2
        have hmv := movementsFor_after_ok s c.form c.uid c.mid c.now pid h1 h2
        by_cases hp : pid = c.form.product_id
        · rw [if_pos hp, h] at hst
          obtain ⟨delta, hd, hs⟩ :=
            ih (recordMovement s c.form c.uid c.mid c.now).1
              (applyMovement q0 c.form.type c.form.quantity) hst
          refine ⟨mkMovement c.form c.uid c.mid c.now :: delta, ?_, ?_⟩
          · rw [hrun, hd, hmv, if_pos hp, List.append_assoc, List.singleton_append]
          · rw [hrun, hs]
            rfl
        · rw [if_neg hp, h] at hst
          obtain ⟨delta, hd, hs⟩ :=
            ih (recordMovement s c.form c.uid c.mid c.now).1 q0 hst
          refine ⟨delta, ?_, ?_⟩
          · rw [hrun, hd, hmv, if_neg hp, List.append_nil]
          · rw [hrun, hs]
      · -- foreign key failure: nothing changes
        have h2' : s.products.any (fun p => p.id == c.form.product_id) = false := by
          simpa using h2
        have hid : (recordMovement s c.form c.uid c.mid c.now).1 = s := by
          rw [recordMovement_notFound s c.form c.uid c.mid c.now h1 h2']
        obtain ⟨delta, hd, hs⟩ := ih s q0 h
        exact ⟨delta, by rw [hrun, hid]; exact hd, by rw [hrun, hid]; exact hs⟩
    · -- validation failure: nothing changes
      have h1' : movementSchema c.form = false := by simpa using h1
      have hid : (recordMovement s c.form c.uid c.mid c.now).1 = s := by
        rw [recordMovement_invalid s c.form c.uid c.mid c.now h1']
      obtain ⟨delta, hd, hs⟩ := ih s q0 h
      exact ⟨delta, by rw [hrun, hid]; exact hd, by rw [hrun, hid]; exact hs⟩

/-- Witness for C1 at the concrete two-call sequence entry `5`, exit `3` on a
product at stock `10`: the maintained field equals the from-scratch fold of
the product's recorded history. -/
theorem fold_correctness_witness :
    currentStockOf (runMovements widgetState demoCalls) "p1" =
      some (foldMovements 1000 (movementsFor (runMovements widgetState demoCalls) "p1")) := by
  obtain ⟨delta, hd, hs⟩ := fold_correctness demoCalls widgetState "p1" 1000 (by decide)
  rw [show movementsFor widgetState "p1" = [] from rfl, List.nil_append] at hd
  rw [hd, hs]

/- ### C2 -/

/-- C2: a single successfully recorded movement changes its product's
quantity by the three-case rule — `entry` adds its quantity, `exit`
subtracts it, and `adjustment` replaces the current quantity with the
movement's quantity (absolute, not a delta). -/
theorem movement_kind_semantics (s : DBState) (v : MovementFormValues) (uid mid : String)
    (now : Nat) (q0 : Int) (hv : movementSchema v = true)
    (h : currentStockOf s v.product_id = some q0) :
    currentStockOf (recordMovement s v uid mid now).1 v.product_id =
      some (match v.type with
        | MovementType.entry => q0 + v.quantity
        | MovementType.exit => q0 - v.quantity
        | MovementType.adjustment => v.quantity) := by
  have h2 := any_of_currentStock s v.product_id q0 h
  rw [currentStock_after_ok s v uid mid now v.product_id hv h2, if_pos rfl, h]
  cases ht : v.type <;> simp [applyMovement, ht]

/-- Witness for C2 at the spec's own numbers (hundredths): stock `10` plus an
entry of `5` gives `15`, the subsequent exit of `3` gives `12`, and an
adjustment of `50` on a product at `120` gives `50`. -/
theorem movement_kind_semantics_witness :
    currentStockOf (recordMovement widgetState entry5Form "u1" "m1" 0).1 "p1" = some 1500 ∧
    currentStockOf
        (recordMovement (recordMovement widgetState entry5Form "u1" "m1" 0).1
          exit3Form "u1" "m2" 1).1 "p1" = some 1200 ∧
    currentStockOf (recordMovement stock120State adjust50Form "u1" "m3" 2).1 "p1" =
      some 5000 := by
  refine ⟨?_, ?_, ?_⟩
  · have h := movement_kind_semantics widgetState entry5Form "u1" "m1" 0 1000
      (by decide) (by decide)
    simpa [entry5Form] using h
  · have h := movement_kind_semantics (recordMovement widgetState entry5Form "u1" "m1" 0).1
      exit3Form "u1" "m2" 1 1500 (by decide) (by decide)
    simpa [exit3Form] using h
  · have h := movement_kind_semantics stock120State adjust50Form "u1" "m3" 2 12000
      (by decide) (by decide)
    simpa [adjust50Form] using h

/- ### C3 -/

/-- C3: `recordMovement` is all-or-nothing — if it fails for any reason the
whole state (movement table and product quantities included) is exactly as
before, and if it succeeds the new ledger row and its quantity update appear
together in one step. -/
theorem recordMovement_atomic (s : DBState) (v : MovementFormValues) (uid mid : String)
    (now : Nat) :
    (∀ e : RecordError, (recordMovement s v uid mid now).2 = Except.error e →
        (recordMovement s v uid mid now).1 = s) ∧
    ((recordMovement s v uid mid now).2 = Except.ok mid →
        (recordMovement s v uid mid now).1.movements =
            s.movements ++ [mkMovement v uid mid now] ∧
          (recordMovement s v uid mid now).1.products =
            update_product_stock (mkMovement v uid mid now) s.products) := by
  by_cases h1 : movementSchema v = true
  · by_cases h2 : s.products.any (fun p => p.id == v.product_id) = true
    · rw [recordMovement_ok s v uid mid now h1 h2]
      exact ⟨fun e he => (nomatch he), fun _ => ⟨rfl, rfl⟩⟩
    · have h2' : s.products.any (fun p => p.id == v.product_id) = false := by simpa using h2
      rw [recordMovement_notFound s v uid mid now h1 h2']
      exact ⟨fun e _ => rfl, fun hok => nomatch hok⟩
  · have h1' : movementSchema v = false := by simpa using h1
    rw [recordMovement_invalid s v uid mid now h1']
    exact ⟨fun e _ => rfl, fun hok => nomatch hok⟩

/-- Witness for C3 at a failing call: an entry aimed at an empty database
errors and leaves the state untouched. -/
theorem recordMovement_atomic_witness :
    (recordMovement emptyState entry5Form "u1" "m1" 0).1 = emptyState := by
  exact (recordMovement_atomic emptyState entry5Form "u1" "m1" 0).1
    RecordError.notFound rfl

/- ### C5 -/

/-- C5: an exit movement is applied unconditionally — there is no floor
check against the current quantity, so any validated exit is accepted and
the resulting quantity is the plain difference, which may be negative. -/
theorem exit_no_floor (s : DBState) (v : MovementFormValues) (uid mid : String) (now : Nat)
    (q0 : Int) (ht : v.type = MovementType.exit) (hv : movementSchema v = true)
    (h : currentStockOf s v.product_id = some q0) :
    (recordMovement s v uid mid now).2 = Except.ok mid ∧
    currentStockOf (recordMovement s v uid mid now).1 v.product_id =
      some (q0 - v.quantity) := by
  have h2 := any_of_currentStock s v.product_id q0 h
  constructor
  · rw [recordMovement_ok s v uid mid now hv h2]
  · rw [currentStock_after_ok s v uid mid now v.product_id hv h2, if_pos rfl, h]
    simp [applyMovement, ht]

/-- Witness for C5 at the spec's numbers (hundredths): at stock `2` an exit
of `5` is accepted and leaves quantity `-3`. -/
theorem exit_no_floor_witness :
    (recordMovement stock2State exit5Form "u1" "m1" 0).2 = Except.ok "m1" ∧
    currentStockOf (recordMovement stock2State exit5Form "u1" "m1" 0).1 "p1" =
      some (-300) := by
  have h := exit_no_floor stock2State exit5Form "u1" "m1" 0 200 rfl (by decide) (by decide)
  exact ⟨h.1, by simpa [exit5Form] using h.2⟩

/- ### C6 -/

/-- C6 counterexample: the Movements page zod schema applies the same
`quantity ≥ 0.01` floor to adjustments, so an adjustment with quantity `0`
(which the claim says is accepted, since it only rejects negative
adjustments) is rejected with a validation error even though the product
exists. -/
theorem adjustment_zero_rejected :
    (0 : Int) ≤ adjustZeroForm.quantity ∧
    adjustZeroForm.type = MovementType.adjustment ∧
    (recordMovement widgetState adjustZeroForm "u1" "m1" 0).2 =
      Except.error RecordError.validationError := by
  exact ⟨by decide, rfl, rfl⟩

/-- C6 (amended): with the other form fields within bounds, `recordMovement`
fails with a validation error exactly when the quantity is below `0.01`
(one hundredth), uniformly for every movement kind — entry `0` fails, entry
`0.01` succeeds, and adjustment `0` fails as well. -/
theorem validation_exactly_when (s : DBState) (v : MovementFormValues) (uid mid : String)
    (now : Nat) (h1 : 1 ≤ v.product_id.length)
    (h2 : (v.batch_number.getD "").length ≤ 100)
    (h3 : (v.notes.getD "").length ≤ 500) :
    ((recordMovement s v uid mid now).2 = Except.error RecordError.validationError ↔
      v.quantity < 1) := by
  by_cases hq : (1 : Int) ≤ v.quantity
  · have hs : movementSchema v = true := by
      unfold movementSchema
      simp [h1, h2, h3, hq]
    by_cases h4 : s.products.any (fun p => p.id == v.product_id) = true
    · rw [recordMovement_ok s v uid mid now hs h4]
      simp
      exact hq
    · have h4' : s.products.any (fun p => p.id == v.product_id) = false := by simpa using h4
      rw [recordMovement_notFound s v uid mid now hs h4']
      simp
      exact hq
  · have hs : movementSchema v = false := by
      unfold movementSchema
      simp [hq]
    rw [recordMovement_invalid s v uid mid now hs]
    simp
    exact Int.not_le.1 hq

/-- Witness for the amended C6: an entry with quantity `0` on the concrete
one-product database is rejected as a validation error. -/
theorem validation_exactly_when_witness :
    (recordMovement widgetState entryZeroForm "u1" "m1" 0).2 =
      Except.error RecordError.validationError := by
  exact (validation_exactly_when widgetState entryZeroForm "u1" "m1" 0
    (by decide) (by decide) (by decide)).mpr (by decide)

/- ### C7 -/

/-- C7: a `recordMovement` whose product id matches no existing product
fails with the not-found outcome and changes nothing — in particular no
movement row is created. -/
theorem unknown_product_not_found (s : DBState) (v : MovementFormValues) (uid mid : String)
    (now : Nat) (hv : movementSchema v = true)
    (h : ∀ p ∈ s.products, p.id ≠ v.product_id) :
    recordMovement s v uid mid now = (s, Except.error RecordError.notFound) := by
  apply recordMovement_notFound s v uid mid now hv
  rw [List.any_eq_false]
  intro p hp
  simpa using h p hp

/-- Witness for C7: an entry of `1` aimed at `"nonexistent-id"` on the empty
database fails with not-found and leaves the movement table empty. -/
theorem unknown_product_not_found_witness :
    recordMovement emptyState ghostForm "u1" "m1" 0 =
      (emptyState, Except.error RecordError.notFound) := by
  exact unknown_product_not_found emptyState ghostForm "u1" "m1" 0 (by decide)
    (fun p hp => absurd hp (List.not_mem_nil p))

/- ### C4 -/

/-- Mapping a function over the product table that preserves ids and stocks
preserves every stock read-back. -/
theorem find_stock_map_pres (g : Product → Product) (pid : String)
    (hid : ∀ p, (g p).id = p.id) (hstock : ∀ p, (g p).current_stock = p.current_stock)
    (ps : List Product) :
    ((ps.map g).find? fun p => p.id == pid).map (fun p => p.current_stock) =
      (ps.find? fun p => p.id == pid).map fun p => p.current_stock := by
  rw [find?_map_idpres g _ (fun x => by rw [hid]) ps]
  cases hf : ps.find? (fun p => p.id == pid) <;> simp [hstock]

/-- The edit form sending stock `99` (`9900` hundredths) for the widget. -/
def editStock99Form : ProductFormValues :=
  { code := "PROD001"
    name := "Widget"
    description := none
    category_id := none
    supplier_id := none
    unit := ProductUnit.un
    minimum_stock := 0
    current_stock := 9900
    price := none
    barcode := none
    batch_control := false
    expiration_control := false }

/-- C4 counterexample: the product dialog's save mutation is a user-facing
edit that writes `current_stock` directly — editing the widget with the
form value `99` changes its quantity from `10` to `99` while appending no
movement to the ledger, so not every quantity mutation goes through a
movement append. -/
theorem product_edit_bypasses_ledger :
    currentStockOf widgetState "p1" = some 1000 ∧
    currentStockOf (applyOp widgetState (AppOp.saveProduct (some "p1") editStock99Form "n1"))
        "p1" = some 9900 ∧
    (applyOp widgetState (AppOp.saveProduct (some "p1") editStock99Form "n1")).movements =
      widgetState.movements := by
  exact ⟨rfl, rfl, rfl⟩

/-- C4 (amended): among all operations the application exposes, the only
ones that can change the stored quantity of an existing product are the two
movement write paths (the ledger appends) and the current product dialog's
save — the product form itself writes `current_stock` directly on create
and edit, so quantity mutation is not exclusive to the ledger.  Every other
operation leaves every surviving product's quantity unchanged. -/
theorem stock_mutators (s : DBState) (op : AppOp) (pid : String) (a b : Int)
    (hb : currentStockOf s pid = some a)
    (ha : currentStockOf (applyOp s op) pid = some b) (hne : a ≠ b) :
    writesCurrentStock op = true := by
  cases op with
  | record v uid mid now => rfl
  | legacyRecord v uid mid now => rfl
  | saveProduct editing v newId => rfl
  | legacySaveProduct editing v newId =>
    exfalso
    apply hne
    have hpres : currentStockOf (applyOp s (AppOp.legacySaveProduct editing v newId)) pid =
        currentStockOf s pid := by
      show currentStockOf (legacyProductSave s editing v newId) pid = currentStockOf s pid
      unfold legacyProductSave
      by_cases hv : legacyProductSchema v = true
      · rw [if_pos hv]
        cases editing with
        | some pid' =>
          show ((s.products.map _).find? _).map _ = _
          rw [find_stock_map_pres _ pid
            (fun p => by by_cases h : p.id = pid' <;> simp [legacySubmitData, h])
            (fun p => by by_cases h : p.id = pid' <;> simp [legacySubmitData, h])]
          rfl
        | none =>
          unfold currentStockOf at hb ⊢
          cases hf : s.products.find? (fun p => p.id == pid) with
          | none => rw [hf] at hb; cases hb
          | some p =>
            dsimp only
            rw [find?_append_left _ s.products _ p hf]
      · rw [if_neg hv]
    rw [hpres, hb] at ha
    cases ha
    rfl
  | removeProduct dpid =>
    exfalso
    by_cases hp : pid = dpid
    · subst hp
      have : currentStockOf (applyOp s (AppOp.removeProduct pid)) pid = none := by
        show ((s.products.filter _).find? _).map _ = none
        rw [find?_filter_none (fun p => !(p.id == pid)) (fun p => p.id == pid)
          (fun x hx => by simp [hx]) s.products]
        rfl
      rw [this] at ha
      cases ha
    · apply hne
      have hpres : currentStockOf (applyOp s (AppOp.removeProduct dpid)) pid =
          currentStockOf s pid := by
        show ((s.products.filter _).find? _).map _ = _
        rw [find?_filter_of_imp (fun p => !(p.id == dpid)) (fun p => p.id == pid)
          (fun x hx => by
            have : x.id = pid := by simpa using hx
            simp [this, hp]) s.products]
        rfl
      rw [hpres, hb] at ha
      cases ha
      rfl
  | saveCategory editing v newId =>
    exfalso
    apply hne
    have hpres : currentStockOf (applyOp s (AppOp.saveCategory editing v newId)) pid =
        currentStockOf s pid := by
      show currentStockOf (categorySave s editing v newId) pid = currentStockOf s pid
      unfold categorySave
      cases editing <;> rfl
    rw [hpres, hb] at ha
    cases ha
    rfl
  | removeCategory cid =>
    exfalso
    apply hne
    have hpres : currentStockOf (applyOp s (AppOp.removeCategory cid)) pid =
        currentStockOf s pid := by
      show currentStockOf (categoryDelete s cid) pid = currentStockOf s pid
      unfold categoryDelete
      split <;> rfl
    rw [hpres, hb] at ha
    cases ha
    rfl
  | saveSupplier editing v newId =>
    exfalso
    apply hne
    have hpres : currentStockOf (applyOp s (AppOp.saveSupplier editing v newId)) pid =
        currentStockOf s pid := by
      show currentStockOf (supplierSave s editing v newId) pid = currentStockOf s pid
      unfold supplierSave
      cases editing <;> rfl
    rw [hpres, hb] at ha
    cases ha
    rfl
  | removeSupplier sid =>
    exfalso
    apply hne
    have hpres : currentStockOf (applyOp s (AppOp.removeSupplier sid)) pid =
        currentStockOf s pid := by
      show currentStockOf (supplierDelete s sid) pid = currentStockOf s pid
      unfold supplierDelete
      split <;> rfl
    rw [hpres, hb] at ha
    cases ha
    rfl

/-- Witness for the amended C4: the concrete edit that moves the widget's
stock from `10` to `99` is classified as a stock-writing operation. -/
theorem stock_mutators_witness :
    writesCurrentStock (AppOp.saveProduct (some "p1") editStock99Form "n1") = true := by
  exact stock_mutators widgetState (AppOp.saveProduct (some "p1") editStock99Form "n1")
    "p1" 1000 9900 (by decide) (by decide) (by decide)

/- ### C8 -/

/-- A database holding the widget and one already-recorded movement. -/
def movedState : DBState :=
  { products := [widgetProduct]
    movements := [mkMovement entry5Form "u1" "m1" 0]
    categories := [], suppliers := [] }

/-- C8: stock movements are immutable and append-only under every operation
the application exposes — an existing movement row survives every operation
unchanged unless the operation deletes its parent product (the cascade), and
any movement row present afterwards either existed before, byte for byte, or
is the single row appended by one of the two movement write paths.  No
operation updates or deletes an individual movement. -/
theorem movements_append_only (s : DBState) (op : AppOp) :
    (∀ m ∈ s.movements,
        m ∈ (applyOp s op).movements ∨ op = AppOp.removeProduct m.product_id) ∧
    (∀ m ∈ (applyOp s op).movements, m ∈ s.movements ∨ appendedBy m op) := by
  cases op with
  | record v uid mid now =>
    constructor
    · intro m hm
      left
      show m ∈ (recordMovement s v uid mid now).1.movements
      unfold recordMovement
      split
      · split
        · simp only [List.mem_append]
          exact Or.inl hm
        · exact hm
      · exact hm
    · intro m hm
      replace hm : m ∈ (recordMovement s v uid mid now).1.movements := hm
      unfold recordMovement at hm
      split at hm
      · split at hm
        · simp only [List.mem_append, List.mem_singleton] at hm
          cases hm with
          | inl h => exact Or.inl h
          | inr h => exact Or.inr h
        · exact Or.inl hm
      · exact Or.inl hm
  | legacyRecord v uid mid now =>
    constructor
    · intro m hm
      left
      show m ∈ (legacyRecordMovement s v uid mid now).1.movements
      unfold legacyRecordMovement
      split
      · split
        · simp only [List.mem_append]
          exact Or.inl hm
        · exact hm
      · exact hm
    · intro m hm
      replace hm : m ∈ (legacyRecordMovement s v uid mid now).1.movements := hm
      unfold legacyRecordMovement at hm
      split at hm
      · split at hm
        · simp only [List.mem_append, List.mem_singleton] at hm
          cases hm with
          | inl h => exact Or.inl h
          | inr h => exact Or.inr h
        · exact Or.inl hm
      · exact Or.inl hm
  | saveProduct editing v newId =>
    have hmv : (applyOp s (AppOp.saveProduct editing v newId)).movements = s.movements := by
      show (productDialogSave s editing v newId).movements = s.movements
      unfold productDialogSave
      split
      · cases editing <;> rfl
      · rfl
    exact ⟨fun m hm => Or.inl (hmv ▸ hm), fun m hm => Or.inl (hmv ▸ hm)⟩
  | legacySaveProduct editing v newId =>
    have hmv : (applyOp s (AppOp.legacySaveProduct editing v newId)).movements =
        s.movements := by
      show (legacyProductSave s editing v newId).movements = s.movements
      unfold legacyProductSave
      split
      · cases editing <;> rfl
      · rfl
    exact ⟨fun m hm => Or.inl (hmv ▸ hm), fun m hm => Or.inl (hmv ▸ hm)⟩
  | removeProduct pid =>
    constructor
    · intro m hm
      by_cases hp : m.product_id = pid
      · exact Or.inr (by rw [hp])
      · left
        show m ∈ (s.movements.filter fun x => !(x.product_id == pid))
        exact List.mem_filter.2 ⟨hm, by simp [hp]⟩
    · intro m hm
      replace hm : m ∈ (s.movements.filter fun x => !(x.product_id == pid)) := hm
      exact Or.inl (List.mem_filter.1 hm).1
  | saveCategory editing v newId =>
    have hmv : (applyOp s (AppOp.saveCategory editing v newId)).movements = s.movements := by
      show (categorySave s editing v newId).movements = s.movements
      unfold categorySave
      cases editing <;> rfl
    exact ⟨fun m hm => Or.inl (hmv ▸ hm), fun m hm => Or.inl (hmv ▸ hm)⟩
  | removeCategory cid =>
    have hmv : (applyOp s (AppOp.removeCategory cid)).movements = s.movements := by
      show (categoryDelete s cid).movements = s.movements
      unfold categoryDelete
      split <;> rfl
    exact ⟨fun m hm => Or.inl (hmv ▸ hm), fun m hm => Or.inl (hmv ▸ hm)⟩
  | saveSupplier editing v newId =>
    have hmv : (applyOp s (AppOp.saveSupplier editing v newId)).movements = s.movements := by
      show (supplierSave s editing v newId).movements = s.movements
      unfold supplierSave
      cases editing <;> rfl
    exact ⟨fun m hm => Or.inl (hmv ▸ hm), fun m hm => Or.inl (hmv ▸ hm)⟩
  | removeSupplier sid =>
    have hmv : (applyOp s (AppOp.removeSupplier sid)).movements = s.movements := by
      show (supplierDelete s sid).movements = s.movements
      unfold supplierDelete
      split <;> rfl
    exact ⟨fun m hm => Or.inl (hmv ▸ hm), fun m hm => Or.inl (hmv ▸ hm)⟩

/-- Witness for C8: the recorded movement for product `p1` survives the
deletion of the unrelated product `p2` untouched. -/
theorem movements_append_only_witness :
    mkMovement entry5Form "u1" "m1" 0 ∈
      (applyOp movedState (AppOp.removeProduct "p2")).movements := by
  rcases (movements_append_only movedState (AppOp.removeProduct "p2")).1
      (mkMovement entry5Form "u1" "m1" 0) (by decide) with h | h
  · exact h
  · exact absurd h (by decide)

/- ### C9 -/

/-- C9: a product is classified low-stock exactly when its current quantity
is at or below its minimum threshold (boundary inclusive), the dashboard's
low-stock figure counts exactly the products satisfying that comparison, and
the minimum threshold plays no part in the movement write path — overwriting
a product's `minimum_stock` with any value changes no `recordMovement`
outcome. -/
theorem low_stock_semantics (ps : List Product) (q : Product) (s : DBState) (pid : String)
    (μ : Int) (v : MovementFormValues) (uid mid : String) (now : Nat) (hq : q ∈ ps) :
    (lowStockProducts ps = ps.countP fun p => decide (p.current_stock ≤ p.minimum_stock)) ∧
    ((q ∈ ps.filter fun p => decide (p.current_stock ≤ p.minimum_stock)) ↔
      q.current_stock ≤ q.minimum_stock) ∧
    ((recordMovement (setMinimumStock s pid μ) v uid mid now).2 =
      (recordMovement s v uid mid now).2) := by
  have hany : (setMinimumStock s pid μ).products.any (fun p => p.id == v.product_id) =
      s.products.any (fun p => p.id == v.product_id) := by
    show ((s.products.map _).any _) = _
    exact any_map_idpres _ _ (fun p => by by_cases h : p.id = pid <;> simp [h]) s.products
  refine ⟨?_, ?_, ?_⟩
  · rw [List.countP_eq_length_filter]
    rfl
  · constructor
    · intro hmem
      simpa using (List.mem_filter.1 hmem).2
    · intro hle
      exact List.mem_filter.2 ⟨hq, by simpa using hle⟩
  · by_cases h1 : movementSchema v = true
    · by_cases h2 : s.products.any (fun p => p.id == v.product_id) = true
      · rw [recordMovement_ok _ v uid mid now h1 (by rw [hany]; exact h2),
          recordMovement_ok s v uid mid now h1 h2]
      · have h2' : s.products.any (fun p => p.id == v.product_id) = false := by simpa using h2
        rw [recordMovement_notFound _ v uid mid now h1 (by rw [hany]; exact h2'),
          recordMovement_notFound s v uid mid now h1 h2']
    · have h1' : movementSchema v = false := by simpa using h1
      rw [recordMovement_invalid _ v uid mid now h1',
        recordMovement_invalid s v uid mid now h1']

/-- The widget sitting exactly on its minimum threshold (`5` and `5`). -/
def boundaryProduct : Product :=
  { widgetProduct with current_stock := 500, minimum_stock := 500 }

/-- Witness for C9: the boundary product (current = minimum) is counted as
low stock, and rewriting the widget's minimum to an arbitrary value leaves
the outcome of a concrete movement unchanged. -/
theorem low_stock_semantics_witness :
    (boundaryProduct ∈
      [boundaryProduct].filter fun p => decide (p.current_stock ≤ p.minimum_stock)) ∧
    (recordMovement (setMinimumStock widgetState "p1" 123456) entry5Form "u1" "m1" 0).2 =
      (recordMovement widgetState entry5Form "u1" "m1" 0).2 := by
  have h := low_stock_semantics [boundaryProduct] boundaryProduct widgetState "p1" 123456
    entry5Form "u1" "m1" 0 (by decide)
  exact ⟨h.2.1.mpr (by decide), h.2.2⟩

/- ### C10 -/

/-- C10: the dashboard's entries-today and exits-today counters filter only
the five most recently created movements, so each counter is at most `5`,
and a movement older than the five most recent ones never contributes:
prepending any movement at the old end of a ledger that already has five or
more rows leaves both counters unchanged. -/
theorem dashboard_today_counters (isT : Nat → Bool) (ms : List StockMovement)
    (m0 : StockMovement) (h : 5 ≤ ms.length) :
    todayEntries isT ms ≤ 5 ∧ todayExits isT ms ≤ 5 ∧
    todayEntries isT (m0 :: ms) = todayEntries isT ms ∧
    todayExits isT (m0 :: ms) = todayExits isT ms := by
  have hb : ∀ f : StockMovement → Bool, ((recentMovements ms).filter f).length ≤ 5 := by
    intro f
    calc ((recentMovements ms).filter f).length
        ≤ (recentMovements ms).length := List.length_filter_le _ _
      _ ≤ 5 := by simp [recentMovements]
  have hr : recentMovements (m0 :: ms) = recentMovements ms := by
    unfold recentMovements
    rw [List.reverse_cons, List.take_append_of_le_length (by simpa using h)]
  refine ⟨hb _, hb _, ?_, ?_⟩
  · unfold todayEntries
    rw [hr]
  · unfold todayExits
    rw [hr]

/-- A date predicate under which every timestamp counts as today. -/
def alwaysToday : Nat → Bool := fun _ => true

/-- An entry movement created at time `i`. -/
def entryAt (i : Nat) : StockMovement := mkMovement entry5Form "u1" (toString i) i

/-- Five entry movements, all matching the date filter. -/
def fiveEntries : List StockMovement :=
  [entryAt 1, entryAt 2, entryAt 3, entryAt 4, entryAt 5]

/-- Witness for C10: with five stored entries of today the counter is capped
at `5`, and an additional older entry of today (a sixth) changes nothing. -/
theorem dashboard_today_counters_witness :
    todayEntries alwaysToday fiveEntries ≤ 5 ∧
    todayEntries alwaysToday (entryAt 0 :: fiveEntries) =
      todayEntries alwaysToday fiveEntries := by
  have h := dashboard_today_counters alwaysToday fiveEntries (entryAt 0) (by decide)
  exact ⟨h.1, h.2.2.1⟩
